import Mathlib

/-!
Verification of the stake lifecycle manager and swarm orchestrator of the
NuCypher proxy re-encryption CLI (`cli/main.py`).

The development shallowly embeds the two commands the claims concern:

* `stake` (actions `init`, `divide`) as pure functions from the prompt and
  option inputs of one invocation to the trace of effectful actions issued
  (ledger transactions, process spawns) together with the terminating error,
  if any;
* `simulate start` as a pure function from the invocation inputs (node count,
  mode flags, account list, deployment confirmation answer) to the trace of
  effectful actions and terminating error.  In the staged source no run of
  `simulate start` proceeds past the deployment phase: non-federated runs
  raise `NameError` at line 477 on the unimported name
  DEFAULT_SIMULATION_REGISTRY_FILEPATH (the file neither defines nor imports
  it, and there is no star import), and federated runs raise `TypeError` at
  line 494 iterating NotImplemented.  The spawn-loop argv construction and
  the cleanup block, both unreachable, are embedded as standalone
  definitions so their own behaviour can be analysed.

Reads (balance queries, stake listings, prompts) and `click.echo` output are
pure and are not recorded as events; every ledger-mutating call, file
operation, process spawn and process kill is an event, in program order.
Values read by `click.prompt(type=int)` are embedded as `Int`.

Collaborator code that is part of the repository but not under `src/`
(the ledger agents, the sandbox constants module) is modelled from the
specification where a claim needs its behaviour; each such definition is
marked `Modelled from the spec:` in its doc comment.
-/

namespace NucypherCli

/-- A committed ledger stake record: owner address, token value, and the
start and end periods of the lock (spec section 3, data model). -/
structure Stake where
  owner : String
  value : Int
  startPeriod : Int
  endPeriod : Int
deriving Repr, DecidableEq

/-- One effectful action issued by the CLI, in program order.  Constructors
mirror the side-effecting calls of `cli/main.py`:
`etherAirdrop` (`blockchain.ether_airdrop`), `arm`/`deploy` on a named
deployer, `tokenAirdrop` (`token_airdrop` per recipient), `registryCommit`
(`registry.commit`), `depositTx` (`miner_agent.deposit_tokens` /
`miner.initialize_stake`: sender, amount, lock periods), `divideTx`
(`miner_agent.divide_stake`: address, stake index, the `value` argument as the
raw CLI option, periods), `confirmActivityTx`, `spawnProc`
(`reactor.spawnProcess`: executable, argv), `removeFile` (`os.remove`) and
`killProc` (`os.kill(pid, 9)`).  The constructors `registryCommit` and
`removeFile` are never produced by the staged source — both call sites die
with `NameError` on their unimported filepath argument — and exist so their
absence from a trace can be stated. -/
inductive Event where
  | etherAirdrop : Int → Event
  | arm : String → Event
  | deploy : String → Event
  | tokenAirdrop : String → Int → Event
  | registryCommit : String → Event
  | depositTx : String → Int → Int → Event
  | divideTx : String → Nat → Option String → Int → Event
  | confirmActivityTx : String → Event
  | spawnProc : String → List String → Event
  | removeFile : String → Event
  | killProc : Nat → Event
deriving Repr, DecidableEq

/-- The ways an invocation of the embedded code terminates abnormally:
`abort` is the `click.Abort` raised by a declined `click.confirm(abort=True)`;
the remaining constructors are the Python exception classes raised by the
source (`RuntimeError`, `NotImplementedError`, `TypeError`,
`AttributeError`, and `NameError` for a bare global that is neither defined
nor imported, carrying the unresolved name), each with its message. -/
inductive Err where
  | abort : Err
  | runtimeError : String → Err
  | notImplementedError : Err
  | typeError : String → Err
  | attributeError : String → Err
  | nameError : String → Err
deriving Repr, DecidableEq

/-- Result of one command invocation: the effectful actions issued before
control returned, and the error that terminated the invocation (`none` for a
normal return).  Events preceding a raised error have already happened and
stay in the trace. -/
structure RunResult where
  events : List Event
  error : Option Err
deriving Repr, DecidableEq

/-! ## Spec-modelled ledger semantics

The `MinerAgent` that executes deposits lives in
`nucypher/blockchain/eth/agents.py`, which is part of the repository but not
under `src/`; the spec treats it as the LedgerGateway collaborator. -/

/-- Modelled from the spec: the effect of the LedgerGateway deposit
transaction (`MinerAgent.deposit_tokens`, not under `src/`).  Spec section
4.1: `init_stake` "computes `start_period = current_period()`, `end_period =
start_period + duration`, submits a deposit transaction through
LedgerGateway, returns the committed Stake"; the committed stake of a deposit
of `amount` locked for `lockPeriods` at current period `p` is appended to the
stake list of the owner. -/
def applyEvent (currentPeriod : Int) (stakes : List Stake) : Event → List Stake
  | Event.depositTx sender amount lockPeriods =>
      stakes ++ [⟨sender, amount, currentPeriod, currentPeriod + lockPeriods⟩]
  | _ => stakes

/-- Fold the ledger effect of a trace over a stake list (deposits are the
only stake-list-mutating events issued by the embedded commands). -/
def applyEvents (currentPeriod : Int) (stakes : List Stake) (es : List Event) :
    List Stake :=
  es.foldl (applyEvent currentPeriod) stakes

/-- Modelled from the spec: `MinerAgent.divide_stake` (LedgerGateway, not
under `src/`).  Spec section 4.1: "splits the original stake into a
continuing stake with updated end period (`old_end + extension_periods`) and
a remainder; value conservation must hold".  Given the stake list, the index,
the new target value and the extension, returns the continuing stake and the
remainder. -/
def divideStakeLedger (stakes : List Stake) (index : Nat) (newValue : Int)
    (periods : Int) : Option (Stake × Stake) :=
  match stakes.get? index with
  | none => none
  | some s =>
      some (⟨s.owner, newValue, s.startPeriod, s.endPeriod + periods⟩,
            ⟨s.owner, s.value - newValue, s.startPeriod, s.endPeriod⟩)

/-! ## The `stake init` action (`main.py` lines 283 to 330)

Inputs of one invocation: the resolved address, the stake list returned by
`miner_agent.get_all_stakes`, the balance returned by
`token_agent.get_balance`, the two prompted integers, the current period
returned by `miner_agent.get_current_period`, and the two confirmation
answers. -/

/-- Inputs of one `stake init` invocation. -/
structure InitInput where
  address : String
  existingStakes : List Stake
  balance : Int
  promptedValue : Int
  promptedDuration : Int
  currentPeriod : Int
  confirmStage : Bool
  confirmCorrect : Bool

/-- The staged start period shown in the review block:
`start_period = config.miner_agent.get_current_period()` (line 301). -/
def stagedStartPeriod (inp : InitInput) : Int := inp.currentPeriod

/-- The staged end period shown in the review block:
`end_period = start_period + duration` (line 302). -/
def stagedEndPeriod (inp : InitInput) : Int :=
  stagedStartPeriod inp + inp.promptedDuration

/-- Action init of the stake command, lines 283 to 330 of `main.py`:
confirm "Stage a new stake?" with abort (284); raise `RuntimeError` if
`get_all_stakes` is non-empty (286 to 288); read balance and prompt for value
and duration (291 to 299); compute and echo the staged preview (301 to 319);
raise `NotImplementedError` if "Is this correct?" is declined (321 to 323);
submit `deposit_tokens(amount=value, lock_periods=duration)` (326); spawn the
`run_ursula` process via `reactor.spawnProcess(processProtocol,
"nucypher-cli", proc_params)` (328 to 330). -/
def stakeInit (inp : InitInput) : RunResult :=
  if !inp.confirmStage then ⟨[], some Err.abort⟩
  else if inp.existingStakes.length > 0 then
    ⟨[], some (Err.runtimeError
      ("There is an existing stake for " ++ inp.address))⟩
  else if !inp.confirmCorrect then ⟨[], some Err.notImplementedError⟩
  else
    ⟨[Event.depositTx inp.address inp.promptedValue inp.promptedDuration,
      Event.spawnProc "nucypher-cli" ["run_ursula"]], none⟩

/-! ## The `stake divide` action (`main.py` lines 347 to 376)

The `--index` option, when given on the command line, reaches the list
indexing `stakes[index]` as a raw string and raises `TypeError`; the embedded
model covers the interactive path, in which the index is obtained from
`click.prompt(type=int)`.  The `--value` option is never converted: it is the
raw option value (a string, or absent) and is what line 375 passes to
`divide_stake` as `value`. -/

/-- Inputs of one `stake divide` invocation. -/
structure DivideInput where
  address : String
  stakes : List Stake
  cliValue : Option String
  promptedIndex : Nat
  promptedTarget : Int
  promptedExtension : Int
  confirmCorrect : Bool

/-- The "New end period" figure echoed in the preview block (line 370 of
`main.py`): the source computes it as `target_value + extension`. -/
def previewNewEndPeriod (inp : DivideInput) : Int :=
  inp.promptedTarget + inp.promptedExtension

/-- Action divide of the stake command, lines 347 to 376 of `main.py`:
raise `RuntimeError` if `get_all_stakes` is empty (350 to 352); prompt for
the index (354 to 357); prompt for the target value and the extension (359 to
360); echo the preview (362 to 370); confirm with abort (372); submit
`divide_stake(miner_address=address, stake_index=index, value=value,
periods=extension)` (373 to 376) — note the `value` argument is the raw
`--value` CLI option, not the prompted target value. -/
def stakeDivide (inp : DivideInput) : RunResult :=
  if inp.stakes.length = 0 then
    ⟨[], some (Err.runtimeError
      ("There are no active stakes for " ++ inp.address))⟩
  else if !inp.confirmCorrect then ⟨[], some Err.abort⟩
  else
    ⟨[Event.divideTx inp.address inp.promptedIndex inp.cliValue
        inp.promptedExtension], none⟩

/-! ## The `simulate start` command (`main.py` lines 414 to 572)

Constants imported from repository modules that are not under `src/`
(`nucypher.config.constants`, `nucypher.utilities.sandbox.constants`) are
modelled below; the properties proved do not depend on their concrete values,
which are placeholders. -/

/-- Modelled from the spec: the installation base directory constant
(`BASE_DIR`, imported from the configuration module, not under `src/`);
its concrete value is a placeholder. -/
def BASE_DIR : String := "/nucypher"

/-- The worker script path: `os.path.join` of `BASE_DIR`, cli, main.py
(line 503). -/
def cli_exec : String := BASE_DIR ++ "/cli/main.py"

/-- The interpreter token assigned at line 504: the string python. -/
def python_exec : String := "python"

/-- Modelled from the spec: the fixed token airdrop amount
(`DEVELOPMENT_TOKEN_AIRDROP_AMOUNT`, sandbox constants module, not under
`src/`); placeholder value. -/
def DEVELOPMENT_TOKEN_AIRDROP_AMOUNT : Int := 1000000

/-- Modelled from the spec: the fixed ether airdrop amount
(`DEVELOPMENT_ETH_AIRDROP_AMOUNT`, sandbox constants module, not under
`src/`); placeholder value. -/
def DEVELOPMENT_ETH_AIRDROP_AMOUNT : Int := 1000000

/-- The per-node database name built at line 501: the literal sim- followed
by the decimal rest port. -/
def db_name (rest_port : Nat) : String := "sim-" ++ toString rest_port

/-- The worker argv produced by lines 506 to 508 of `main.py`.  The template
`python3 {} run_ursula --rest-port {} --db-name {}` holds three placeholders
but `.format` receives four arguments `(python_exec, cli_exec, rest_port,
db_name)`; Python fills the placeholders left to right and silently drops the
surplus argument, so after `.split()` the tokens are `python3`, `python`,
`run_ursula`, `--rest-port`, the script path, `--db-name`, and the decimal
rest port — the computed `db_name` string never enters the argv. -/
def proc_params_base (rest_port : Nat) : List String :=
  ["python3", python_exec, "run_ursula",
   "--rest-port", cli_exec, "--db-name", toString rest_port]

/-- The full argv of one worker: lines 510 to 529.  Federated-only mode
appends `--federated-only`; otherwise `--checksum-address <address>` is
appended after the stake is initialized.  The spawn loop containing this
construction is unreachable in the staged source (no run proceeds past line
477 or line 494); the definition embeds the staged lines so the command-line
contract they would establish can be analysed. -/
def nodeParams (federatedOnly : Bool) (rest_port : Nat) (addr : String) :
    List String :=
  if federatedOnly then proc_params_base rest_port ++ ["--federated-only"]
  else proc_params_base rest_port ++ ["--checksum-address", addr]

/-- Inputs of one `simulate start` invocation: node count, mode flags, the
account list created by the tester blockchain, and the answer to the
deployment confirmation prompt (line 443).  The reactor confirmation prompt
(line 558), the reactor run and the cleanup block are unreachable in the
staged source, so they contribute no inputs. -/
structure SimInput where
  nodes : Nat
  federatedOnly : Bool
  geth : Bool
  accounts : List String
  confirmDeploy : Bool

/-- Events of the deployment phase, lines 441 to 477 of `main.py`, given the
non-origin accounts: ether airdrop (441); arm then deploy the token contract
(447 to 449); arm then deploy the miner escrow, whose deployer is constructed
from the token agent (452 to 457); arm then deploy the policy manager, whose
deployer is constructed from the miner agent (460 to 465); token airdrop to
every non-origin account (468 to 473).  Line 477 then evaluates the bare name
DEFAULT_SIMULATION_REGISTRY_FILEPATH, which `cli/main.py` neither defines nor
imports, and raises `NameError` before `registry.commit` is invoked: no
commit event is ever produced, and these events are the whole trace of every
confirmed non-federated run. -/
def deployPhaseEvents (everyone_else : List String) : List Event :=
  [Event.arm "NucypherTokenDeployer", Event.deploy "NucypherTokenDeployer",
   Event.arm "MinerEscrowDeployer", Event.deploy "MinerEscrowDeployer",
   Event.arm "PolicyManagerDeployer", Event.deploy "PolicyManagerDeployer"]
  ++ everyone_else.map
       (fun a => Event.tokenAirdrop a DEVELOPMENT_TOKEN_AIRDROP_AMOUNT)

/-- Cleanup: the finally block of lines 561 to 572, embedded standalone.  It
is unreachable in every run of the staged source (non-federated runs die at
line 477, federated runs at line 494, both before the try statement), and its
own body is defective twice over: in non-federated mode line 565 evaluates
the same unimported name DEFAULT_SIMULATION_REGISTRY_FILEPATH and raises
`NameError` before `os.remove` executes, so no file removal can ever happen;
and line 568 iterates `config.sim_processes`, an attribute no statement of
the source ever assigns (spawned handles live only in a loop-local variable),
raising `AttributeError` before any kill when it is unset.  The parameter
gives the value of that attribute (`none` when unassigned, which is every
run); the result is the events of the block and the error it raises. -/
def finallyBlock (federatedOnly : Bool) (simProcs : Option (List Nat)) :
    List Event × Option Err :=
  if !federatedOnly then
    ([], some (Err.nameError "DEFAULT_SIMULATION_REGISTRY_FILEPATH"))
  else
    match simProcs with
    | none =>
        ([], some (Err.attributeError
          "NucypherClickConfig object has no attribute sim_processes"))
    | some pids => (pids.map Event.killProc, none)

/-- Command simulate start, lines 414 to 572 of `main.py`.
Non-federated mode: unpack the origin and the rest of the account list (433,
raising `ValueError` on an empty account list); ether airdrop (441); confirm
the deployment with abort (443); arm and deploy the three contracts and
airdrop tokens (447 to 473); then line 477 raises `NameError` on the
unimported name DEFAULT_SIMULATION_REGISTRY_FILEPATH while evaluating the
argument of `registry.commit` — the snapshot is never persisted and nothing
after line 477 (spawn loop, reactor, cleanup) is reachable.
Federated-only mode: the deployment phase is skipped; line 490 sets
`sim_addresses = NotImplemented`, and line 494 iterates it, raising
`TypeError` before any node is spawned. -/
def simulateStart (inp : SimInput) : RunResult :=
  if inp.federatedOnly then
    ⟨[], some (Err.typeError "argument of type NotImplementedType is not iterable")⟩
  else
    match inp.accounts with
    | [] => ⟨[], some (Err.runtimeError
        "ValueError: not enough values to unpack")⟩
    | _origin :: everyone_else =>
      let ev0 := [Event.etherAirdrop DEVELOPMENT_ETH_AIRDROP_AMOUNT]
      if !inp.confirmDeploy then ⟨ev0, some Err.abort⟩
      else
        ⟨ev0 ++ deployPhaseEvents everyone_else,
         some (Err.nameError "DEFAULT_SIMULATION_REGISTRY_FILEPATH")⟩

/-- The argv lists of the processes spawned during a run, in spawn order. -/
def spawnedCommands (r : RunResult) : List (List String) :=
  r.events.foldr
    (fun e acc => match e with
      | Event.spawnProc _ args => args :: acc
      | _ => acc) []

/-- The pids to which a kill was issued during a run, in order. -/
def killedPids (r : RunResult) : List Nat :=
  r.events.foldr
    (fun e acc => match e with
      | Event.killProc pid => pid :: acc
      | _ => acc) []

/-- Recognizer of deposit transactions in a trace. -/
def isDepositTx : Event → Bool
  | Event.depositTx _ _ _ => true
  | _ => false

/-- Recognizer of registry snapshot commits in a trace. -/
def isRegistryCommit : Event → Bool
  | Event.registryCommit _ => true
  | _ => false

/-- Recognizer of file removals in a trace. -/
def isRemoveFile : Event → Bool
  | Event.removeFile _ => true
  | _ => false

/-! ## Concrete invocation inputs used by the claim theorems -/

/-- A well-formed init invocation: no existing stake, balance 20000, prompted
value 15000, prompted duration 30, current period 100, both confirmations
accepted. -/
def initOkInput : InitInput :=
  ⟨"0xAlice", [], 20000, 15000, 30, 100, true, true⟩

/-- An init invocation against an address holding one stake already. -/
def initExistingInput : InitInput :=
  ⟨"0xCarol", [⟨"0xCarol", 500, 7, 40⟩], 20000, 15000, 30, 100, true, true⟩

/-- An init invocation in which the operator declines the staged-stake
preview confirmation. -/
def initRejectedInput : InitInput :=
  ⟨"0xDave", [], 20000, 15000, 30, 100, true, false⟩

/-- An out-of-range init invocation: balance 10 but prompted value 0, which
lies outside the open-closed interval from 0 to the balance. -/
def outOfRangeInput : InitInput :=
  ⟨"0xAlice", [], 10, 0, 5, 100, true, true⟩

/-- A divide invocation: one stake of value 100 locked from period 10 to
period 50; the value option was not given on the command line; the operator
selects index 0, enters target value 30 and extension 2, and confirms. -/
def divideInputEx : DivideInput :=
  ⟨"0xBob", [⟨"0xBob", 100, 10, 50⟩], none, 0, 30, 2, true⟩

/-- A non-federated simulation attempt with origin plus two participants
and the deployment confirmed. -/
def startAttemptInput : SimInput :=
  { nodes := 3, federatedOnly := false, geth := false,
    accounts := ["0xOrigin", "0xNode1", "0xNode2"],
    confirmDeploy := true }

/-- A federated-only simulation requesting five nodes. -/
def federatedFiveInput : SimInput :=
  { nodes := 5, federatedOnly := true, geth := false,
    accounts := ["a0", "a1", "a2", "a3", "a4"],
    confirmDeploy := true }

/-- A non-federated simulation attempt with origin plus one participant. -/
def singleNodeInput : SimInput :=
  { nodes := 2, federatedOnly := false, geth := false,
    accounts := ["0xOrigin", "0xNode1"],
    confirmDeploy := true }

/-- A non-federated simulation attempt with origin plus two participants
used by the deployment order theorem. -/
def deployOrderInput : SimInput :=
  { nodes := 3, federatedOnly := false, geth := false,
    accounts := ["0xOrigin", "0xA", "0xB"],
    confirmDeploy := true }

/-! ## Claim theorems -/

/-- C6: for every address with no existing stake, in-range prompted value and
duration, and both confirmations accepted, stake init succeeds: the staged
start period is the current period, the staged end period is start plus
duration, the deposit transactions of the trace are exactly one deposit for
the prompted amount and duration, and the ledger afterwards holds exactly the
one committed stake, whose end period minus start period equals the
duration. -/
theorem init_stake_success (inp : InitInput)
    (minAllowed minPeriods maxPeriods : Int)
    (hempty : inp.existingStakes = [])
    (hcs : inp.confirmStage = true)
    (hcc : inp.confirmCorrect = true)
    (hv1 : minAllowed ≤ inp.promptedValue)
    (hv2 : inp.promptedValue ≤ inp.balance)
    (hd1 : minPeriods ≤ inp.promptedDuration)
    (hd2 : inp.promptedDuration ≤ maxPeriods) :
    (stakeInit inp).error = none ∧
    stagedStartPeriod inp = inp.currentPeriod ∧
    stagedEndPeriod inp = stagedStartPeriod inp + inp.promptedDuration ∧
    (stakeInit inp).events.filter isDepositTx =
      [Event.depositTx inp.address inp.promptedValue inp.promptedDuration] ∧
    applyEvents inp.currentPeriod [] (stakeInit inp).events =
      [⟨inp.address, inp.promptedValue, inp.currentPeriod,
        inp.currentPeriod + inp.promptedDuration⟩] ∧
    ((applyEvents inp.currentPeriod [] (stakeInit inp).events).all
      (fun s => s.endPeriod - s.startPeriod == inp.promptedDuration)) = true := by
  refine ⟨?_, rfl, rfl, ?_, ?_, ?_⟩ <;>
    simp [stakeInit, hempty, hcs, hcc, applyEvents, applyEvent, isDepositTx]

/-- Witness for the init success theorem at `initOkInput`, with protocol
bounds instantiated to 15000 tokens minimum and a 30 to 365 period window. -/
theorem init_stake_success_witness :
    (stakeInit initOkInput).error = none ∧
    stagedStartPeriod initOkInput = initOkInput.currentPeriod ∧
    stagedEndPeriod initOkInput =
      stagedStartPeriod initOkInput + initOkInput.promptedDuration ∧
    (stakeInit initOkInput).events.filter isDepositTx =
      [Event.depositTx initOkInput.address initOkInput.promptedValue
        initOkInput.promptedDuration] ∧
    applyEvents initOkInput.currentPeriod [] (stakeInit initOkInput).events =
      [⟨initOkInput.address, initOkInput.promptedValue,
        initOkInput.currentPeriod,
        initOkInput.currentPeriod + initOkInput.promptedDuration⟩] ∧
    ((applyEvents initOkInput.currentPeriod []
        (stakeInit initOkInput).events).all
      (fun s => s.endPeriod - s.startPeriod == initOkInput.promptedDuration))
      = true :=
  init_stake_success initOkInput 15000 30 365 rfl rfl rfl
    (by decide) (by decide) (by decide) (by decide)

/-- C7: a second init for an address that already holds a stake fails with
the RuntimeError modelling the existing-stake error class, carrying the
address; no event is issued, so no deposit transaction is submitted and the
ledger stake list is unchanged. -/
theorem init_stake_existing_fails (inp : InitInput)
    (hne : inp.existingStakes ≠ [])
    (hcs : inp.confirmStage = true) :
    (stakeInit inp).error =
      some (Err.runtimeError
        ("There is an existing stake for " ++ inp.address)) ∧
    (stakeInit inp).events = [] ∧
    applyEvents inp.currentPeriod inp.existingStakes (stakeInit inp).events =
      inp.existingStakes := by
  have hlen : inp.existingStakes.length > 0 := List.length_pos.mpr hne
  simp [stakeInit, hcs, hlen, applyEvents]

/-- Witness for the existing-stake failure theorem at `initExistingInput`. -/
theorem init_stake_existing_fails_witness :
    (stakeInit initExistingInput).error =
      some (Err.runtimeError
        ("There is an existing stake for " ++ initExistingInput.address)) ∧
    (stakeInit initExistingInput).events = [] ∧
    applyEvents initExistingInput.currentPeriod
      initExistingInput.existingStakes (stakeInit initExistingInput).events =
      initExistingInput.existingStakes :=
  init_stake_existing_fails initExistingInput (by decide) rfl

/-- C9: when the operator rejects the staged-stake preview confirmation, init
raises NotImplementedError and issues no event, so the staged values are
never committed to the ledger. -/
theorem init_stake_preview_rejected (inp : InitInput)
    (hempty : inp.existingStakes = [])
    (hcs : inp.confirmStage = true)
    (hcc : inp.confirmCorrect = false) :
    (stakeInit inp).error = some Err.notImplementedError ∧
    (stakeInit inp).events = [] := by
  simp [stakeInit, hempty, hcs, hcc]

/-- Witness for the rejected-preview theorem at `initRejectedInput`. -/
theorem init_stake_preview_rejected_witness :
    (stakeInit initRejectedInput).error = some Err.notImplementedError ∧
    (stakeInit initRejectedInput).events = [] :=
  init_stake_preview_rejected initRejectedInput rfl rfl rfl

/-- C10: every successful stake init issues exactly the deposit transaction
immediately followed by the spawn of one run_ursula worker process through
the reactor: initializing a stake also creates a process handle. -/
theorem init_stake_spawns_worker (inp : InitInput)
    (hok : (stakeInit inp).error = none) :
    (stakeInit inp).events =
      [Event.depositTx inp.address inp.promptedValue inp.promptedDuration,
       Event.spawnProc "nucypher-cli" ["run_ursula"]] := by
  cases h1 : inp.confirmStage with
  | false => simp [stakeInit, h1] at hok
  | true =>
    by_cases h2 : inp.existingStakes.length > 0
    · simp [stakeInit, h1, h2] at hok
    · cases h3 : inp.confirmCorrect with
      | false => simp [stakeInit, h1, h2, h3] at hok
      | true => simp [stakeInit, h1, h2, h3]

/-- Witness for the spawn side effect theorem at `initOkInput`. -/
theorem init_stake_spawns_worker_witness :
    (stakeInit initOkInput).events =
      [Event.depositTx initOkInput.address initOkInput.promptedValue
        initOkInput.promptedDuration,
       Event.spawnProc "nucypher-cli" ["run_ursula"]] :=
  init_stake_spawns_worker initOkInput (by decide)

/-- C5, counterexample: at `outOfRangeInput` the prompted value 0 lies
outside the valid range (the balance is positive), yet the invocation ends
with no error of any class and the deposit transaction for value 0 is
submitted — the source performs no range validation before
`deposit_tokens`. -/
theorem init_stake_out_of_range_not_rejected :
    outOfRangeInput.promptedValue = 0 ∧
    (0 : Int) < outOfRangeInput.balance ∧
    (stakeInit outOfRangeInput).error = none ∧
    Event.depositTx "0xAlice" 0 5 ∈ (stakeInit outOfRangeInput).events := by
  decide

/-- C5, amended: for every address with no existing stake and both
confirmations accepted, init submits the deposit transaction with exactly the
prompted value and duration and terminates without error, whatever the value
and duration: the command performs no range validation, and range enforcement
is left to the ledger layer. -/
theorem init_stake_no_range_validation (inp : InitInput)
    (hempty : inp.existingStakes = [])
    (hcs : inp.confirmStage = true)
    (hcc : inp.confirmCorrect = true) :
    (stakeInit inp).error = none ∧
    Event.depositTx inp.address inp.promptedValue inp.promptedDuration ∈
      (stakeInit inp).events := by
  simp [stakeInit, hempty, hcs, hcc]

/-- Witness for the no-range-validation theorem at `outOfRangeInput`. -/
theorem init_stake_no_range_validation_witness :
    (stakeInit outOfRangeInput).error = none ∧
    Event.depositTx outOfRangeInput.address outOfRangeInput.promptedValue
      outOfRangeInput.promptedDuration ∈ (stakeInit outOfRangeInput).events :=
  init_stake_no_range_validation outOfRangeInput rfl rfl rfl

/-- C2: at `divideInputEx` the submitted division carries the raw value
option (absent here), not the prompted target value 30: the trace holds
exactly one divide transaction whose value argument is `none`, and no divide
transaction carrying the prompted target is present.  The preview computes
the new end period as target plus extension, 32, although the spec-modelled
ledger division at target 30 and extension 2 yields the continuing stake
with end period 52 and values 30 and 70 summing to the original 100. -/
theorem divide_stake_ignores_prompted_target :
    (stakeDivide divideInputEx).error = none ∧
    (stakeDivide divideInputEx).events = [Event.divideTx "0xBob" 0 none 2] ∧
    divideInputEx.promptedTarget = 30 ∧
    ((stakeDivide divideInputEx).events.contains
      (Event.divideTx "0xBob" 0 (some "30") 2)) = false ∧
    previewNewEndPeriod divideInputEx = 32 ∧
    divideStakeLedger divideInputEx.stakes 0 30 2 =
      some (⟨"0xBob", 30, 10, 52⟩, ⟨"0xBob", 70, 10, 50⟩) := by
  decide

/-- C1: the Running phase never begins in any run of the staged source, so
the cleanup guarantee can never fire.  At `startAttemptInput` (non-federated,
deployment confirmed) the run terminates with NameError on the unimported
registry path name at line 477, before any worker is spawned, any snapshot
written or the reactor started: the trace holds no spawn, no file removal and
no kill.  Moreover the cleanup block itself (lines 561 to 572), were it ever
entered, acts on nothing: in non-federated mode it raises the same NameError
at line 565 before the file removal, and in federated mode it raises
AttributeError on the never-assigned sim processes attribute before any
kill. -/
theorem running_never_begins_cleanup_defective :
    (simulateStart startAttemptInput).error =
      some (Err.nameError "DEFAULT_SIMULATION_REGISTRY_FILEPATH") ∧
    spawnedCommands (simulateStart startAttemptInput) = [] ∧
    (simulateStart startAttemptInput).events.filter isRemoveFile = [] ∧
    killedPids (simulateStart startAttemptInput) = [] ∧
    finallyBlock false none =
      ([], some (Err.nameError "DEFAULT_SIMULATION_REGISTRY_FILEPATH")) ∧
    finallyBlock true none =
      ([], some (Err.attributeError
        "NucypherClickConfig object has no attribute sim_processes")) := by
  decide

/-- C3: at `federatedFiveInput` the federated-only simulation of five nodes
spawns no process at all: the source sets the address sequence to
NotImplemented and the spawn loop raises TypeError before its first
iteration, so no handle, port or database name is ever produced. -/
theorem federated_spawn_produces_no_handles :
    spawnedCommands (simulateStart federatedFiveInput) = [] ∧
    (simulateStart federatedFiveInput).events = [] ∧
    (simulateStart federatedFiveInput).error =
      some (Err.typeError
        "argument of type NotImplementedType is not iterable") := by
  decide

/-- C4: no run of the staged source ever reaches the spawn loop — at
`singleNodeInput` the non-federated run dies with NameError at line 477
before any spawn (and federated runs die with TypeError at line 494, see the
C3 theorem) — so the claimed per-node command-line contract is never
established for any node.  Moreover the argv the loop would hand to the
process supervisor, embedded from the staged lines 506 to 529, is misencoded:
the format template has three placeholders for four arguments, so the
database name sim-8787 appears nowhere, the rest-port flag is bound to the
worker script path and the db-name flag to the decimal port; the checksum
address is appended in non-federated mode and the federated variant carries
the federated-only flag instead. -/
theorem worker_command_line_omits_db_name :
    spawnedCommands (simulateStart singleNodeInput) = [] ∧
    (simulateStart singleNodeInput).error =
      some (Err.nameError "DEFAULT_SIMULATION_REGISTRY_FILEPATH") ∧
    nodeParams false 8787 "0xNode1" =
      ["python3", "python", "run_ursula",
       "--rest-port", "/nucypher/cli/main.py", "--db-name", "8787",
       "--checksum-address", "0xNode1"] ∧
    db_name 8787 = "sim-8787" ∧
    ((nodeParams false 8787 "0xNode1").contains "sim-8787") = false ∧
    nodeParams true 8787 "0xNode1" =
      ["python3", "python", "run_ursula",
       "--rest-port", "/nucypher/cli/main.py", "--db-name", "8787",
       "--federated-only"] ∧
    ((nodeParams true 8787 "0xNode1").contains "sim-8787") = false := by
  decide

/-- C8: at `deployOrderInput` the deployment order of the claim holds up to
the airdrops — ether airdrop, then arm and deploy of the token deployer, then
arm and deploy of the miner escrow deployer, then arm and deploy of the
policy manager deployer, then one token airdrop per non-origin account — but
the registry snapshot is never persisted: line 477 raises NameError on the
unimported registry path name while evaluating the argument of the commit
call, so the trace holds no commit event and the run ends there. -/
theorem deploy_order_holds_registry_commit_unreachable :
    (simulateStart deployOrderInput).events =
      [Event.etherAirdrop DEVELOPMENT_ETH_AIRDROP_AMOUNT,
       Event.arm "NucypherTokenDeployer", Event.deploy "NucypherTokenDeployer",
       Event.arm "MinerEscrowDeployer", Event.deploy "MinerEscrowDeployer",
       Event.arm "PolicyManagerDeployer",
       Event.deploy "PolicyManagerDeployer",
       Event.tokenAirdrop "0xA" DEVELOPMENT_TOKEN_AIRDROP_AMOUNT,
       Event.tokenAirdrop "0xB" DEVELOPMENT_TOKEN_AIRDROP_AMOUNT] ∧
    (simulateStart deployOrderInput).events.filter isRegistryCommit = [] ∧
    (simulateStart deployOrderInput).error =
      some (Err.nameError "DEFAULT_SIMULATION_REGISTRY_FILEPATH") := by
  decide

end NucypherCli
